import Mathlib

/-!
Verification development for the TailorTalk conversational booking agent
(`agent.py` and collaborators).  The Python source is shallowly embedded:

* calendar datetimes are modelled as `Int` minutes on a local-time axis
  (the whole program works in the single fixed zone `Asia/Kolkata`,
  `agent.py` line 15); a timezone-aware datetime is a naive minute count
  paired with a fixed UTC offset (`TZTime`);
* the mutable `AgentState` TypedDict becomes a Lean structure, its
  free-form `context` dict a record of the keys the code actually uses;
* remote collaborators (the `ChatOpenAI` intent classifier and the
  `CalendarService` calendar port) are modelled by a per-turn environment
  `TurnEnv` of response functions; a call that raises a Python exception
  is an `Except.error`, a call that returns is `Except.ok`;
* every graph node becomes a function `TurnEnv → AgentState → Except String
  AgentState`; `Except.error` models an exception escaping the node.
-/

/-- Chat messages: `HumanMessage` / `AIMessage` from the message history. -/
inductive Msg where
  | human (content : String)
  | ai (content : String)
deriving DecidableEq

/-- Text content of a message. -/
def Msg.content : Msg → String
  | .human c => c
  | .ai c => c

/-- Fixed reference timezone offset in minutes: `LOCAL_TIMEZONE =
pytz.timezone("Asia/Kolkata")` (agent.py line 15), UTC+5:30 = 330 minutes. -/
def istOffset : Int := 330

/-- A timezone-aware datetime: naive local minutes plus the attached UTC
offset in minutes.  `LOCAL_TIMEZONE.localize(t)` attaches `istOffset`. -/
structure TZTime where
  naive : Int
  offset : Int
deriving DecidableEq

/-- Model of `LOCAL_TIMEZONE.localize(parsed_time_naive)` (agent.py 447). -/
def localizeIST (n : Int) : TZTime := ⟨n, istOffset⟩

/-- Model of `target_date.replace(hour=h, minute=m, second=0, microsecond=0)`
at minute granularity: keep the calendar day of `t`, set the clock time. -/
def replaceHM (t : TZTime) (h m : Int) : TZTime :=
  ⟨t.naive - t.naive % 1440 + h * 60 + m, t.offset⟩

/- ### Slot Calculator (the inline computation of `_suggest_times`,
agent.py lines 558-574) -/

/-- Python tuple comparison used by `sorted([(parser.parse(b['start']),
parser.parse(b['end'])) for b in busy_times])` (agent.py 562): lexicographic
order on (start, end) pairs. -/
def busyLE (a b : Int × Int) : Prop :=
  a.1 < b.1 ∨ (a.1 = b.1 ∧ a.2 ≤ b.2)

instance : DecidableRel busyLE := fun a b =>
  inferInstanceAs (Decidable (a.1 < b.1 ∨ (a.1 = b.1 ∧ a.2 ≤ b.2)))

instance : IsTotal (Int × Int) busyLE :=
  ⟨by intro a b; unfold busyLE; omega⟩

instance : IsTrans (Int × Int) busyLE :=
  ⟨by intro a b c; unfold busyLE; omega⟩

/-- Model of `sorted(busy_intervals)` (agent.py 562); insertion sort is, like
Python sorted, a stable sort for the same total preorder. -/
def sortBusy (l : List (Int × Int)) : List (Int × Int) :=
  List.insertionSort busyLE l

/-- Cursor scan over busy intervals (agent.py 563-568): `current_time =
day_start`; for each busy interval, if `current_time < busy_start` emit the
gap `[current_time, busy_start)`; then `current_time = max(current_time,
busy_end)`; finally if `current_time < day_end` emit `[current_time,
day_end)`. -/
def computeGaps (cursor dayEnd : Int) : List (Int × Int) → List (Int × Int)
  | [] => if cursor < dayEnd then [(cursor, dayEnd)] else []
  | b :: rest =>
      (if cursor < b.1 then [(cursor, b.1)] else []) ++
        computeGaps (max cursor b.2) dayEnd rest

/-- Iterations of the slicing loop, structurally recursive on a fuel bound
so that it computes by reduction; `slice30` below supplies fuel that can
never run out. -/
def slice30Go : Nat → Int → Int → List (Int × Int)
  | 0, _, _ => []
  | fuel + 1, s, e =>
      if s + 30 ≤ e then (s, s + 30) :: slice30Go fuel (s + 30) e else []

/-- Slicing of a free gap into consecutive 30-minute slots (agent.py
570-574): `while slot_start + timedelta(minutes=30) <= slot_end`, emit
`(slot_start, slot_start + 30)` and advance by 30 minutes; the trailing
remainder shorter than 30 minutes is discarded.  Each loop iteration
shrinks `e - s` by 30, so `(e - s).toNat` bounds the iteration count. -/
def slice30 (s e : Int) : List (Int × Int) :=
  slice30Go (e - s).toNat s e

/-- The whole slot computation of `_suggest_times`: sort the busy
intervals, scan for free gaps, slice each gap into 30-minute slots. -/
def computeFreeSlots (dayStart dayEnd : Int) (busy : List (Int × Int)) :
    List (Int × Int) :=
  (computeGaps dayStart dayEnd (sortBusy busy)).flatMap fun g => slice30 g.1 g.2

/-- The keys of the free-form `state['context']` dict that the code reads or
writes; an absent key is `none`.  `availability` holds busy intervals after
`_check_availability` and appointment slots after `_suggest_times` (both
lists of (start, end) minute pairs). -/
structure Ctx where
  availability : Option (List (Int × Int)) := none
  availability_error : Option String := none
  is_slot_available : Option Bool := none
  user_informed_slot_is_busy : Option Bool := none
  booking_details : Option String := none
deriving DecidableEq

/-- A calendar event dict as the agent consumes it: `.get('id')`,
`.get('summary')`, `['start']['dateTime']` and `['end']['dateTime']`
(modelled as local minutes).  A missing key is `none`. -/
structure CalEvent where
  id : Option String := none
  summary : Option String := none
  startTime : Option Int := none
  endTime : Option Int := none
deriving DecidableEq

/-- Free/busy response of the calendar port: either a dict with an `error`
key (in which case the `.get('calendars', {})...` chain yields `[]`), or a
normal response carrying the primary calendar's busy list. -/
inductive FreeBusy where
  | errorResp (msg : String)
  | busyList (busy : List (Int × Int))
deriving DecidableEq

/-- Model of `resp.get('calendars', {}).get('primary', {}).get('busy', [])`. -/
def FreeBusy.busyOf : FreeBusy → List (Int × Int)
  | .errorResp _ => []
  | .busyList b => b

/-- Model of the `"error" in resp` check. -/
def FreeBusy.errorKey : FreeBusy → Option String
  | .errorResp m => some m
  | .busyList _ => none

/-- Search response of the calendar port: `{"error": msg}` or
`{"items": [...]}`. -/
inductive SearchResp where
  | errorResp (msg : String)
  | found (items : List CalEvent)
deriving DecidableEq

/-- Response dict of create/update/delete calendar calls: optional `id`
and optional `error` keys. -/
structure CalResp where
  id : Option String := none
  error : Option String := none
deriving DecidableEq

/-- Content of the intent classifier's reply, distinguished exactly as
`_understand_intent` (agent.py 426-432) distinguishes it: not valid JSON
(`json.loads` raises `JSONDecodeError`), valid JSON that is not an object
(`result.get` then raises `AttributeError`), or a JSON object whose
optional `intent` key holds a string. -/
inductive ClassifierContent where
  | notJson
  | jsonNonObj
  | jsonObj (intent : Option String)
deriving DecidableEq

/-- Per-turn environment: outcome of each remote-collaborator call the turn
may make.  `Except.error e` models the call raising a Python exception
with message `e` (for calendar calls this includes the `AttributeError`
from the missing `self.calendar_service` attribute); `Except.ok` models a
value returned normally.  `parseFuzzy` is `dateutil.parser.parse(msg,
fuzzy=True)`: `none` when it raises `ValueError`/`TypeError`, otherwise
the parsed naive local minute count. -/
structure TurnEnv where
  classifierResp : Except String ClassifierContent
  parseFuzzy : String → Option Int
  now : Int
  getAvailability : Int → Int → Except String FreeBusy
  createEvent : Int → Int → Except String CalResp
  searchEvents : Int → Int → Except String SearchResp
  deleteEvent : Option String → Except String CalResp
  updateEvent : String → Int → Int → Except String CalResp

/-- The `AgentState` TypedDict (agent.py 20-33).  `extracted_info` is
represented by its only used key `parsed_datetime`; the fields
`final_booking_details`, `conversation_stage` and `suggested_slots` are
never read or written by any graph node and are omitted. -/
structure AgentState where
  session_id : String := ""
  messages : List Msg := []
  context : Ctx := {}
  intent : String := ""
  parsed_datetime : Option TZTime := none
  availability_checked : Bool := false
  booking_confirmed : Bool := false
  cancellation_candidates : List CalEvent := []
  event_to_reschedule : Option CalEvent := none
deriving DecidableEq

/-- Append an AI message to the history. -/
def AgentState.sayAI (st : AgentState) (text : String) : AgentState :=
  {st with messages := st.messages ++ [Msg.ai text]}

/- Two-digit zero padding for clock rendering. -/
def pad2 (n : Int) : String :=
  if n < 10 then "0" ++ toString n else toString n

/-- Rendering of `strftime('%I:%M %p')` (12-hour clock) for a local minute
count. -/
def formatClock (m : Int) : String :=
  let h24 := (m / 60) % 24
  let h12 := if h24 % 12 = 0 then (12 : Int) else h24 % 12
  pad2 h12 ++ ":" ++ pad2 (m % 60) ++ " " ++ (if h24 < 12 then "AM" else "PM")

/-- Rendering of `strftime('%I:%M %p on %A, %B %d')`.  The weekday and
month names of strftime are abbreviated to a day index; no claim depends
on the textual date format. -/
def formatDT (m : Int) : String :=
  formatClock m ++ " on day " ++ toString (m / 1440)

/- ### Graph nodes (agent.py).  Each node returns `Except.ok` on a normal
return and `Except.error` when a Python exception escapes the node. -/

/-- The latest human message: `[msg.content for msg in state['messages'] if
isinstance(msg, HumanMessage)][-1]`, or `""` when there is none
(agent.py 439-440). -/
def latestHumanContent (msgs : List Msg) : String :=
  ((msgs.filterMap fun m => match m with
      | .human c => some c
      | .ai _ => none).getLast?).getD ""

/-- Node `_understand_intent` (agent.py 408-434).  Only
`json.JSONDecodeError` and `KeyError` are caught: an exception from the
`llm.ainvoke` call itself, or the `AttributeError` from `result.get` when
the JSON is not an object, escapes the node. -/
def understandIntent (env : TurnEnv) (st : AgentState) :
    Except String AgentState :=
  match env.classifierResp with
  | .error e => .error e
  | .ok .notJson => .ok {st with intent := "general_inquiry"}
  | .ok .jsonNonObj => .error "AttributeError: object has no attribute get"
  | .ok (.jsonObj none) => .ok {st with intent := "general_inquiry"}
  | .ok (.jsonObj (some i)) => .ok {st with intent := i}

/-- Node `_extract_datetime` (agent.py 436-456).  On a parse failure (or no
human message) the `parsed_datetime` key is popped from `extracted_info`;
on success the naive parse result is localized to `LOCAL_TIMEZONE` and
stored.  `ValueError`/`TypeError` are caught, so the node always returns. -/
def extractDatetime (env : TurnEnv) (st : AgentState) : AgentState :=
  let latest := latestHumanContent st.messages
  if latest = "" then {st with parsed_datetime := none}
  else
    match env.parseFuzzy latest with
    | none => {st with parsed_datetime := none}
    | some n => {st with parsed_datetime := some (localizeIST n)}

/-- Node `_check_availability` (agent.py 510-539, the later definition of
the duplicated pair, which is the one bound into the graph).  The body is
wrapped in try/except, and a response carrying an `error` key is raised and
then caught, so the node always returns; on failure it records
`availability_error`, on success the primary busy list and
`availability_checked`. -/
def checkAvailability (env : TurnEnv) (st : AgentState) :
    Except String AgentState :=
  let target : TZTime :=
    match st.parsed_datetime with
    | some t => t
    | none => ⟨env.now, istOffset⟩
  let dayStart := replaceHM target 9 0
  let dayEnd := replaceHM target 17 0
  match env.getAvailability dayStart.naive dayEnd.naive with
  | .error e =>
      .ok {st with context := {st.context with availability_error := some e}}
  | .ok (.errorResp e) =>
      .ok {st with context := {st.context with availability_error := some e}}
  | .ok (.busyList b) =>
      .ok {st with context := {st.context with availability := some b},
                   availability_checked := true}

/-- Node `_check_specific_slot` (agent.py 627-651).  Everything is inside
try/except (a missing `parsed_datetime` key, a raised calendar call, and a
response with an `error` key all land in the handler), so the node always
returns; `is_slot_available` is true exactly when the free/busy query for
`[t, t+30)` succeeded with an empty busy list. -/
def checkSpecificSlot (env : TurnEnv) (st : AgentState) :
    Except String AgentState :=
  .ok <|
    match st.parsed_datetime with
    | none =>
        {st with context := {st.context with is_slot_available := some false}}
    | some t =>
        match env.getAvailability t.naive (t.naive + 30) with
        | .error _ =>
            {st with context := {st.context with is_slot_available := some false}}
        | .ok (.errorResp _) =>
            {st with context := {st.context with is_slot_available := some false}}
        | .ok (.busyList b) =>
            {st with context :=
              {st.context with is_slot_available := some b.isEmpty}}

/-- Router `_route_after_specific_slot_check` (agent.py 375-385): routes to
confirmation when `is_slot_available` is truthy, otherwise sets the
`user_informed_slot_is_busy` context flag and routes to alternatives. -/
def routeAfterSpecificSlotCheck (st : AgentState) : String × AgentState :=
  if st.context.is_slot_available.getD false then ("confirm", st)
  else ("suggest_alternatives",
    {st with context := {st.context with user_informed_slot_is_busy := some true}})

/-- Message strings of `_suggest_times` (agent.py 552-580). -/
def busyAltMsg : String :=
  "I\x27m sorry, but that time is already booked. Here are some other available slots for that day:"

def greatSlotsMsg : String :=
  "Great! I found several available time slots. Which one works best for you?"

def noSlotsMsg : String :=
  "I\x27m sorry, but I don\x27t see any other available slots for that day."

/-- Node `_suggest_times` (agent.py 541-588).  The `availability_error`
check at the top is a `pass` and has no effect.  When `parsed_datetime` is
missing, `parser.parse(None)` raises inside the try, the bare
`except: pass` swallows it, and the final `state['messages'].append`
then hits the unbound local `response_message`: that `NameError` escapes
the node.  Otherwise the busy intervals in `context['availability']` are
sliced into 30-minute slots; a non-empty slot list is stored in
`context['availability']` with the context-aware base message, an empty
one yields the no-slots apology. -/
def suggestTimes (_env : TurnEnv) (st : AgentState) : Except String AgentState :=
  let baseMessage :=
    if st.context.user_informed_slot_is_busy.getD false then busyAltMsg
    else greatSlotsMsg
  match st.parsed_datetime with
  | none => .error "NameError: local variable response_message referenced before assignment"
  | some t =>
      let dayStart := (replaceHM t 9 0).naive
      let dayEnd := (replaceHM t 17 0).naive
      let busy := st.context.availability.getD []
      let slots := computeFreeSlots dayStart dayEnd busy
      if slots.isEmpty then
        .ok (({st with context := {st.context with availability := some []}}).sayAI
          noSlotsMsg)
      else
        .ok (({st with context := {st.context with availability := some slots}}).sayAI
          baseMessage)

/-- Node `_confirm_booking` (agent.py 596-623).  The calendar call is
inside try/except, so the node always returns: a raised call becomes the
unexpected-error apology, a response without an `id` the failure apology,
and a response with an `id` the success message with
`booking_confirmed = True` and the booking details recorded. -/
def confirmBooking (env : TurnEnv) (st : AgentState) :
    Except String AgentState :=
  .ok <|
    match st.parsed_datetime with
    | none =>
        st.sayAI "I seem to have lost the time for the booking. Could you please specify it again?"
    | some t =>
        match env.createEvent t.naive (t.naive + 30) with
        | .error e =>
            st.sayAI ("An unexpected error occurred while finalizing your booking: " ++ e)
        | .ok resp =>
            match resp.id with
            | some _ =>
                {st with booking_confirmed := true,
                         context := {st.context with booking_details := resp.id}}.sayAI
                  ("Excellent! I have successfully booked your appointment for "
                    ++ formatDT t.naive
                    ++ ". You will receive a calendar invitation shortly.")
            | none =>
                st.sayAI ("I\x27m sorry, I was unable to create the event on the calendar due to: "
                  ++ resp.error.getD "an unknown issue" ++ ". Please try again.")

/-- Node `_clarify_details` (agent.py 590-594). -/
def clarifyDetails (st : AgentState) : AgentState :=
  st.sayAI "I can help with that! When were you thinking of scheduling the appointment?"

/-- Node `_handle_general_inquiry` (agent.py 287-292). -/
def handleGeneralInquiry (st : AgentState) : AgentState :=
  st.sayAI "I can help with booking, canceling, and rescheduling appointments. How can I assist you today?"

/-- Node `_find_event_for_action` (agent.py 315-350): re-extracts the
datetime, picks a whole-day window when the extracted time has zero
hour/minute and a plus or minus 2 hour window otherwise, then searches.
The `search_events` call is not inside any try/except: an exception raised
there escapes the node. -/
def findEventForAction (env : TurnEnv) (st : AgentState) :
    Except String AgentState :=
  let st := extractDatetime env st
  match st.parsed_datetime with
  | none =>
      .ok {(st.sayAI "I\x27m not sure which day you\x27re asking about. Please specify a date.") with
            cancellation_candidates := []}
  | some t =>
      let window : Int × Int :=
        if t.naive % 1440 = 0 then (t.naive, t.naive + 1440)
        else (t.naive - 120, t.naive + 120)
      match env.searchEvents window.1 window.2 with
      | .error e => .error e
      | .ok (.errorResp e) =>
          .ok {(st.sayAI ("Sorry, I had trouble searching your calendar: " ++ e)) with
                cancellation_candidates := []}
      | .ok (.found items) => .ok {st with cancellation_candidates := items}

/-- Not-found message appended by `_route_after_event_search` itself. -/
def notFoundMsg : String :=
  "I couldn\x27t find any event matching that description. Could you be more specific?"

/-- Router `_route_after_event_search` (agent.py 295-313); it appends the
not-found message to the state as a side effect in the zero-candidate
branch, so it returns the route label together with the (possibly
modified) state. -/
def routeAfterEventSearch (st : AgentState) : String × AgentState :=
  if st.intent = "find_event" then ("list_events", st)
  else if st.cancellation_candidates.length = 0 then
    ("not_found", st.sayAI notFoundMsg)
  else if st.cancellation_candidates.length > 1 then ("clarify_cancel", st)
  else if st.intent = "cancel_appointment" then ("cancel", st)
  else if st.intent = "reschedule_appointment" then ("reschedule", st)
  else ("not_found", st)

/-- Node `_list_found_events` (agent.py 352-371).  A candidate without a
`start.dateTime` makes `parser.parse(None)` raise a `TypeError` that
escapes the node. -/
def listFoundEvents (st : AgentState) : Except String AgentState :=
  match st.cancellation_candidates with
  | [] => .ok (st.sayAI "I looked at that day and couldn\x27t find any scheduled events.")
  | evs => do
      let lines ← evs.mapM fun ev =>
        match ev.startTime with
        | none => Except.error "TypeError: parser argument must be a string"
        | some s =>
            Except.ok ("- " ++ formatClock s ++ ": " ++ ev.summary.getD "No Title")
      .ok (st.sayAI ("I found the following events for you:\n" ++
        String.intercalate "\n" lines))

/-- Node `_clarify_cancellation` (agent.py 238-249).  `event['start']` /
`event['summary']` are indexed directly: a candidate without them raises;
`parser.parse` of a missing `dateTime` raises a `TypeError`. -/
def clarifyCancellation (st : AgentState) : Except String AgentState := do
  let options ← st.cancellation_candidates.mapM fun ev =>
    match ev.startTime with
    | none => Except.error "TypeError: parser argument must be a string"
    | some s =>
        match ev.summary with
        | none => Except.error "KeyError: summary"
        | some sm => Except.ok ("\x27" ++ sm ++ "\x27 at " ++ formatClock s)
  .ok (st.sayAI ("I found a few events that match. Which one did you mean?\n- " ++
    String.intercalate "\n- " options))

/-- Node `_handle_cancellation` (agent.py 251-267).  The delete call is not
inside any try/except: an exception raised while calling the calendar port
escapes the node.  A returned `error` key yields the failure apology, a
normal return the success message. -/
def handleCancellation (env : TurnEnv) (st : AgentState) :
    Except String AgentState :=
  match st.cancellation_candidates with
  | [] => .error "IndexError: list index out of range"
  | ev :: _ =>
      let summary := ev.summary.getD "your appointment"
      match env.deleteEvent ev.id with
      | .error e => .error e
      | .ok res =>
          match res.error with
          | some e =>
              .ok (st.sayAI ("I\x27m sorry, I failed to cancel \x27" ++ summary
                ++ "\x27. Error: " ++ e))
          | none =>
              .ok (st.sayAI ("Done. I have successfully cancelled your event: \x27"
                ++ summary ++ "\x27."))

/-- Node `_handle_reschedule_request` (agent.py 149-158): records the first
candidate as the pending reschedule target and asks for the new time. -/
def handleRescheduleRequest (st : AgentState) : Except String AgentState :=
  match st.cancellation_candidates with
  | [] => .error "IndexError: list index out of range"
  | ev :: _ =>
      .ok ({st with event_to_reschedule := some ev}.sayAI
        ("I can help with that. I\x27ve found the event \x27" ++ ev.summary.getD "None"
          ++ "\x27. When were you thinking of rescheduling the appointment?"))

/-- Duration of the original event in `_complete_reschedule` (agent.py
179-184): end minus start when both parse, else the `KeyError`/`TypeError`
handler defaults to 30 minutes. -/
def durOf : Option CalEvent → Int
  | some ev =>
      match ev.startTime, ev.endTime with
      | some s, some e => e - s
      | _, _ => 30
  | none => 30

/-- Reply of `_complete_reschedule` when the new time cannot be parsed. -/
def rescheduleTimeFailMsg : String :=
  "I\x27m sorry, I didn\x27t understand that time. Could you please provide the new date and time for the reschedule?"

/-- Node `_complete_reschedule` (agent.py 160-218).  No try/except guards
the calendar calls: an exception raised by `get_availability` or
`update_event` escapes the node.  When the requested window is busy the
user is asked for another time and `event_to_reschedule` is kept; only a
successful update clears `event_to_reschedule` and
`cancellation_candidates`. -/
def completeReschedule (env : TurnEnv) (st : AgentState) :
    Except String AgentState :=
  let original := st.event_to_reschedule
  match st.messages.getLast? with
  | none => .error "IndexError: list index out of range"
  | some _ =>
    let st := extractDatetime env st
    match st.parsed_datetime with
    | none => .ok (st.sayAI rescheduleTimeFailMsg)
    | some t =>
        let newStart := t.naive
        let newEnd := newStart + durOf original
        match env.getAvailability newStart newEnd with
        | .error e => .error e
        | .ok resp =>
            if resp.busyOf.isEmpty = false then
              match original with
              | none => .error "AttributeError: NoneType object has no attribute get"
              | some ev =>
                  .ok (st.sayAI ("I\x27m sorry, but that time is already booked. Please suggest another time for rescheduling \x27"
                    ++ ev.summary.getD "None" ++ "\x27."))
            else
              match original with
              | none => .error "TypeError: NoneType object is not subscriptable"
              | some ev =>
                  match ev.id with
                  | none => .error "KeyError: id"
                  | some eid =>
                      match env.updateEvent eid newStart newEnd with
                      | .error e => .error e
                      | .ok ur =>
                          match ur.error with
                          | some e =>
                              .ok (st.sayAI ("I\x27m sorry, an error occurred while trying to update the event: " ++ e))
                          | none =>
                              .ok ({st with event_to_reschedule := none,
                                            cancellation_candidates := []}.sayAI
                                ("Excellent! I have successfully rescheduled your appointment to "
                                  ++ formatDT newStart ++ "."))

/-- Entry conditional edge (agent.py 75-82): `"complete_reschedule" if
state.get('event_to_reschedule') else "understand_intent"`. -/
def initialRouterTarget (st : AgentState) : String :=
  if st.event_to_reschedule.isSome then "complete_reschedule"
  else "understand_intent"

/-- Router `_route_by_intent` (agent.py 270-285). -/
def routeByIntent (intent : String) : String :=
  if intent = "find_event" then "find_event"
  else if intent = "book_appointment" then "book"
  else if intent = "check_availability" then "check"
  else if intent = "cancel_appointment" then "cancel"
  else if intent = "reschedule_appointment" then "reschedule"
  else if intent = "general_inquiry" then "general_inquiry"
  else "clarify"

/-- Edge dict after `understand_intent` (agent.py 86-98). -/
def intentEdgeMap : String → String
  | "find_event" => "find_event_for_action"
  | "book" => "extract_datetime"
  | "check" => "extract_datetime"
  | "cancel" => "find_event_for_action"
  | "reschedule" => "find_event_for_action"
  | "general_inquiry" => "handle_general_inquiry"
  | _ => "clarify_details"

/-- Router `_route_after_datetime_extraction` (agent.py 489-508). -/
def routeAfterDatetimeExtraction (st : AgentState) : String :=
  if st.parsed_datetime.isNone then "clarify"
  else if st.intent = "book_appointment" then "check_specific_slot"
  else if st.intent = "check_availability" then "check_availability"
  else "clarify"

/-- Edge dict after `extract_datetime` (agent.py 100-108). -/
def datetimeEdgeMap : String → String
  | "check_specific_slot" => "check_specific_slot"
  | "check_availability" => "check_availability"
  | _ => "clarify_details"

/-- Edge dict after `check_specific_slot` (agent.py 110-117). -/
def specificSlotEdgeMap : String → String
  | "confirm" => "confirm_booking"
  | _ => "check_availability"

/-- Edge dict after `find_event_for_action` (agent.py 119-129). -/
def eventSearchEdgeMap : String → String
  | "list_events" => "list_found_events"
  | "cancel" => "handle_cancellation"
  | "reschedule" => "handle_reschedule_request"
  | "clarify_cancel" => "clarify_cancellation"
  | _ => "list_found_events"

/-- Execution of the compiled graph from a node, with fuel (the graph is
acyclic with depth at most 7, so fuel 16 never runs out).  Fixed edges:
`complete_reschedule`, `list_found_events`, `suggest_times`,
`clarify_details`, `clarify_cancellation`, `handle_cancellation`,
`handle_reschedule_request`, `confirm_booking` and
`handle_general_inquiry` go to END, `check_availability` goes to
`suggest_times` (agent.py 84, 131-139). -/
def runFromNode (env : TurnEnv) : Nat → String → AgentState →
    Except String AgentState
  | 0, _, st => .ok st
  | _ + 1, "END", st => .ok st
  | fuel + 1, "initial_router", st =>
      runFromNode env fuel (initialRouterTarget st) st
  | fuel + 1, "understand_intent", st => do
      let st ← understandIntent env st
      runFromNode env fuel (intentEdgeMap (routeByIntent st.intent)) st
  | fuel + 1, "extract_datetime", st =>
      let st := extractDatetime env st
      runFromNode env fuel (datetimeEdgeMap (routeAfterDatetimeExtraction st)) st
  | fuel + 1, "check_specific_slot", st => do
      let st ← checkSpecificSlot env st
      let p := routeAfterSpecificSlotCheck st
      runFromNode env fuel (specificSlotEdgeMap p.1) p.2
  | fuel + 1, "check_availability", st => do
      let st ← checkAvailability env st
      runFromNode env fuel "suggest_times" st
  | fuel + 1, "suggest_times", st => do
      let st ← suggestTimes env st
      runFromNode env fuel "END" st
  | fuel + 1, "confirm_booking", st => do
      let st ← confirmBooking env st
      runFromNode env fuel "END" st
  | fuel + 1, "clarify_details", st =>
      runFromNode env fuel "END" (clarifyDetails st)
  | fuel + 1, "find_event_for_action", st => do
      let st ← findEventForAction env st
      let p := routeAfterEventSearch st
      runFromNode env fuel (eventSearchEdgeMap p.1) p.2
  | fuel + 1, "list_found_events", st => do
      let st ← listFoundEvents st
      runFromNode env fuel "END" st
  | fuel + 1, "clarify_cancellation", st => do
      let st ← clarifyCancellation st
      runFromNode env fuel "END" st
  | fuel + 1, "handle_cancellation", st => do
      let st ← handleCancellation env st
      runFromNode env fuel "END" st
  | fuel + 1, "handle_reschedule_request", st => do
      let st ← handleRescheduleRequest st
      runFromNode env fuel "END" st
  | fuel + 1, "complete_reschedule", st => do
      let st ← completeReschedule env st
      runFromNode env fuel "END" st
  | fuel + 1, "handle_general_inquiry", st =>
      runFromNode env fuel "END" (handleGeneralInquiry st)
  | _ + 1, _, st => .ok st

/-- One full pass of the dialogue graph (`self.graph.ainvoke`). -/
def runTurn (env : TurnEnv) (st : AgentState) : Except String AgentState :=
  runFromNode env 16 "initial_router" st

/-- Python `state['context'].update(context)`: keys present in the caller
patch overwrite, the rest are kept. -/
def Ctx.updateFrom (c p : Ctx) : Ctx :=
  { availability := p.availability.orElse fun _ => c.availability,
    availability_error := p.availability_error.orElse fun _ => c.availability_error,
    is_slot_available := p.is_slot_available.orElse fun _ => c.is_slot_available,
    user_informed_slot_is_busy :=
      p.user_informed_slot_is_busy.orElse fun _ => c.user_informed_slot_is_busy,
    booking_details := p.booking_details.orElse fun _ => c.booking_details }

/-- The pre-graph part of `process_message` (agent.py 393-396): append the
inbound `HumanMessage` and, when the caller-supplied context dict is
non-empty (`if context:`), merge it into the state's context.  Nothing
here clears `availability` or `availability_error`. -/
def processMessagePre (st : AgentState) (message : String) (callerCtx : Ctx) :
    AgentState :=
  let st := {st with messages := st.messages ++ [Msg.human message]}
  if callerCtx = ({} : Ctx) then st
  else {st with context := st.context.updateFrom callerCtx}

/-- One call of `TailorTalkAgent.process_message` for an existing session
state (agent.py 387-406): prelude, then the graph. -/
def processMessage (env : TurnEnv) (st : AgentState) (message : String)
    (callerCtx : Ctx) : Except String AgentState :=
  runTurn env (processMessagePre st message callerCtx)

/-- The payload `process_message` returns to its caller (agent.py 403-406). -/
structure TurnReply where
  message : String
  context : Ctx
  intent : String
deriving DecidableEq

/-- Model of the return dict of `process_message`. -/
def replyOf (st : AgentState) : TurnReply :=
  ⟨(st.messages.getLast?.map Msg.content).getD "How can I help you?",
    st.context, st.intent⟩

/- ### Session store with Python aliasing (for `__init__` and the
session-creation prelude of `process_message`, agent.py 37-47 and
389-394).

`self.initial_state` is a plain dict; `self.initial_state.copy()` is a
SHALLOW copy, so every value that is itself a mutable object (the
`messages` list, the `context` dict, ...) is shared between
`initial_state` and every session created from it.  The model gives each
Python list object a heap reference; a session's state stores the
reference of its messages list.  The other mutable collections
(`context`, `extracted_info`, `cancellation_candidates`) alias in exactly
the same way; modelling `messages` suffices to exhibit the behaviour. -/

structure SessionsModel where
  heap : Nat → List Msg
  initialRef : Nat
  sessions : List (String × Nat)

/-- `TailorTalkAgent.__init__`: empty session map, `initial_state` with a
fresh empty messages list object (reference 0). -/
def initAgentSessions : SessionsModel :=
  ⟨fun _ => [], 0, []⟩

/-- Lines 389-391: `if session_id not in self.sessions:
self.sessions[session_id] = self.initial_state.copy()`.  The shallow copy
stores the SAME list object reference (`initialRef`) under the new
session.  Returns the messages-list reference of the session's state. -/
def getOrCreate (m : SessionsModel) (sid : String) : SessionsModel × Nat :=
  match m.sessions.lookup sid with
  | some r => (m, r)
  | none => ({m with sessions := (sid, m.initialRef) :: m.sessions}, m.initialRef)

/-- In-place `list.append` on the heap object `r`. -/
def appendMessage (m : SessionsModel) (r : Nat) (msg : Msg) : SessionsModel :=
  {m with heap := fun i => if i = r then m.heap r ++ [msg] else m.heap i}

/-- The session-creation and message-append prelude of `process_message`
(agent.py 389-394): get or create the session state, then
`state['messages'].append(HumanMessage(content=message))`. -/
def processMessageEntry (m : SessionsModel) (sid msg : String) : SessionsModel :=
  let p := getOrCreate m sid
  appendMessage p.1 p.2 (Msg.human msg)

/-- The message history currently stored under a session id. -/
def sessionMessages (m : SessionsModel) (sid : String) : Option (List Msg) :=
  (m.sessions.lookup sid).map m.heap

/-- Correctness of the slot computation over a day window, as claimed: every
slot lasts exactly 30 minutes; the slots are pairwise non-overlapping; each
slot sits inside one of the computed free gaps (which is disjoint from every
busy interval); and every free gap at least 30 minutes long receives a
slot. -/
def SlotCalcCorrect (dayStart dayEnd : Int) (busy : List (Int × Int)) : Prop :=
  (∀ p ∈ computeFreeSlots dayStart dayEnd busy, p.2 = p.1 + 30)
  ∧ (computeFreeSlots dayStart dayEnd busy).Pairwise
      (fun p q => p.2 ≤ q.1 ∨ q.2 ≤ p.1)
  ∧ (∀ p ∈ computeFreeSlots dayStart dayEnd busy,
      ∃ g ∈ computeGaps dayStart dayEnd (sortBusy busy),
        g.1 ≤ p.1 ∧ p.2 ≤ g.2 ∧ ∀ b ∈ busy, g.2 ≤ b.1 ∨ b.2 ≤ g.1)
  ∧ (∀ g ∈ computeGaps dayStart dayEnd (sortBusy busy), g.1 + 30 ≤ g.2 →
      ∃ p ∈ computeFreeSlots dayStart dayEnd busy, g.1 ≤ p.1 ∧ p.2 ≤ g.2)

/-- A benign environment: classifier returns an intent-less JSON object, no
temporal expression parses, the calendar is empty and every call succeeds. -/
def stockEnv : TurnEnv :=
  { classifierResp := .ok (.jsonObj none),
    parseFuzzy := fun _ => none,
    now := 0,
    getAvailability := fun _ _ => .ok (.busyList []),
    createEvent := fun _ _ => .ok {},
    searchEvents := fun _ _ => .ok (.found []),
    deleteEvent := fun _ => .ok {},
    updateEvent := fun _ _ _ => .ok {} }

/-- Turn-1 environment for the C1 trace: the classifier reports
`check_availability`, "3 pm tomorrow" parses to minute 900 (15:00 of day
0), and the day's free/busy query reports one busy block 10:00-10:30. -/
def c1Env1 : TurnEnv :=
  { stockEnv with
    classifierResp := .ok (.jsonObj (some "check_availability")),
    parseFuzzy := fun _ => some 900,
    getAvailability := fun _ _ => .ok (.busyList [(600, 630)]) }

/-- Turn-2 environment for the C1 trace: a pure general inquiry; the
free/busy function would raise if it were consulted, which it is not. -/
def c1Env2 : TurnEnv :=
  { stockEnv with
    classifierResp := .ok (.jsonObj (some "general_inquiry")),
    getAvailability := fun _ _ => .error "unreachable" }

/-- The C1 trace: an availability turn followed by a general-inquiry turn
in the same session, with an empty caller context both times. -/
def c1Turn2 : Except String AgentState :=
  match processMessage c1Env1 {} "any slots tomorrow" {} with
  | .ok st => processMessage c1Env2 st "thanks" {}
  | .error e => .error e

/-- The cancellation turn whose calendar-port call raises. -/
def c3Env : TurnEnv :=
  {stockEnv with deleteEvent := fun _ => .error "AttributeError: TailorTalkAgent object has no attribute calendar_service"}

/-- A state about to cancel a uniquely matched event. -/
def c3St : AgentState :=
  { intent := "cancel_appointment",
    cancellation_candidates := [{id := some "evt1", summary := some "Standup"}] }

/-- The pending-reschedule turn used in the C5 witness. -/
def c5Env : TurnEnv :=
  { stockEnv with
    parseFuzzy := fun _ => some 900,
    getAvailability := fun _ _ => .ok (.busyList []),
    updateEvent := fun _ _ _ => .ok {id := some "evt1"} }

/-- A session state awaiting the new time of a pending reschedule. -/
def c5St : AgentState :=
  { messages := [Msg.human "move it to 3pm"],
    event_to_reschedule :=
      some {id := some "evt1", summary := some "Sync", startTime := some 600,
            endTime := some 630} }

/-- The C9 counterexample turn: the user books 15:00, the exact window
15:00-15:30 is busy, and the whole business day is busy as well, so no
alternative slot exists. -/
def c9Env : TurnEnv :=
  { stockEnv with
    classifierResp := .ok (.jsonObj (some "book_appointment")),
    parseFuzzy := fun _ => some 900,
    getAvailability := fun s _ =>
      if s = 900 then .ok (.busyList [(900, 930)])
      else .ok (.busyList [(540, 1020)]) }

/-- The full C9 counterexample turn over a fresh session. -/
def c9Turn : Except String AgentState :=
  processMessage c9Env {} "book a meeting tomorrow at 3pm" {}

/- ### Theorems -/

theorem slice30Go_mem (fuel : Nat) :
    ∀ s e : Int, ∀ p ∈ slice30Go fuel s e, s ≤ p.1 ∧ p.2 = p.1 + 30 ∧ p.2 ≤ e := by
  induction fuel with
  | zero => intro s e p hp; exact absurd hp (List.not_mem_nil p)
  | succ fuel ih =>
    intro s e p hp
    simp only [slice30Go] at hp
    split at hp
    · rcases List.mem_cons.mp hp with h1 | h2
      · subst h1
        rename_i h
        omega
      · have := ih (s + 30) e p h2
        omega
    · exact absurd hp (List.not_mem_nil p)

theorem slice30_mem (s e : Int) :
    ∀ p ∈ slice30 s e, s ≤ p.1 ∧ p.2 = p.1 + 30 ∧ p.2 ≤ e :=
  slice30Go_mem (e - s).toNat s e

theorem slice30Go_chain (fuel : Nat) :
    ∀ s e : Int, (slice30Go fuel s e).Pairwise fun a b => a.2 ≤ b.1 := by
  induction fuel with
  | zero => intro s e; exact List.Pairwise.nil
  | succ fuel ih =>
    intro s e
    simp only [slice30Go]
    split
    · refine List.Pairwise.cons ?_ (ih (s + 30) e)
      intro b hb
      have := slice30Go_mem fuel (s + 30) e b hb
      omega
    · exact List.Pairwise.nil

theorem slice30_chain (s e : Int) :
    (slice30 s e).Pairwise fun a b => a.2 ≤ b.1 :=
  slice30Go_chain (e - s).toNat s e

theorem slice30_head (s e : Int) (h : s + 30 ≤ e) :
    (s, s + 30) ∈ slice30 s e := by
  unfold slice30
  have hfuel : (e - s).toNat = ((e - s).toNat - 1) + 1 := by omega
  rw [hfuel]
  simp only [slice30Go]
  simp [h]

theorem computeGaps_mem (dayEnd : Int) (l : List (Int × Int)) :
    ∀ cursor : Int, (∀ b ∈ l, b.1 < b.2 ∧ b.2 ≤ dayEnd) →
    ∀ g ∈ computeGaps cursor dayEnd l, cursor ≤ g.1 ∧ g.1 < g.2 ∧ g.2 ≤ dayEnd := by
  induction l with
  | nil =>
    intro cursor _ g hg
    simp only [computeGaps] at hg
    split at hg
    · rcases List.mem_singleton.mp hg with h
      subst h
      omega
    · exact absurd hg (List.not_mem_nil g)
  | cons b rest ih =>
    intro cursor hv g hg
    simp only [computeGaps] at hg
    have hb := hv b (List.mem_cons_self b rest)
    have hvrest : ∀ x ∈ rest, x.1 < x.2 ∧ x.2 ≤ dayEnd :=
      fun x hx => hv x (List.mem_cons_of_mem b hx)
    rcases List.mem_append.mp hg with h1 | h2
    · split at h1
      · rcases List.mem_singleton.mp h1 with h
        subst h
        rename_i hcb
        omega
      · exact absurd h1 (List.not_mem_nil g)
    · have := ih (max cursor b.2) hvrest g h2
      omega

theorem computeGaps_chain (dayEnd : Int) (l : List (Int × Int)) :
    ∀ cursor : Int, (∀ b ∈ l, b.1 < b.2 ∧ b.2 ≤ dayEnd) →
    (computeGaps cursor dayEnd l).Pairwise fun g h => g.2 ≤ h.1 := by
  induction l with
  | nil =>
    intro cursor _
    simp only [computeGaps]
    split
    · exact List.pairwise_singleton _ _
    · exact List.Pairwise.nil
  | cons b rest ih =>
    intro cursor hv
    have hb := hv b (List.mem_cons_self b rest)
    have hvrest : ∀ x ∈ rest, x.1 < x.2 ∧ x.2 ≤ dayEnd :=
      fun x hx => hv x (List.mem_cons_of_mem b hx)
    simp only [computeGaps]
    rw [List.pairwise_append]
    refine ⟨?_, ih (max cursor b.2) hvrest, ?_⟩
    · split
      · exact List.pairwise_singleton _ _
      · exact List.Pairwise.nil
    · intro x hx y hy
      have hybound := computeGaps_mem dayEnd rest (max cursor b.2) hvrest y hy
      split at hx
      · rcases List.mem_singleton.mp hx with h
        subst h
        omega
      · exact absurd hx (List.not_mem_nil x)

theorem computeGaps_disjoint (dayEnd : Int) (l : List (Int × Int)) :
    ∀ cursor : Int, (∀ b ∈ l, b.1 < b.2 ∧ b.2 ≤ dayEnd) →
    (l.Pairwise fun a b => a.2 ≤ b.1) →
    ∀ g ∈ computeGaps cursor dayEnd l, ∀ b ∈ l, g.2 ≤ b.1 ∨ b.2 ≤ g.1 := by
  induction l with
  | nil =>
    intro cursor _ _ g _ b hb
    exact absurd hb (List.not_mem_nil b)
  | cons b rest ih =>
    intro cursor hv hchain g hg c hc
    have hb := hv b (List.mem_cons_self b rest)
    have hvrest : ∀ x ∈ rest, x.1 < x.2 ∧ x.2 ≤ dayEnd :=
      fun x hx => hv x (List.mem_cons_of_mem b hx)
    have hchain' := List.pairwise_cons.mp hchain
    simp only [computeGaps] at hg
    rcases List.mem_append.mp hg with h1 | h2
    · split at h1
      · rcases List.mem_singleton.mp h1 with h
        subst h
        rcases List.mem_cons.mp hc with hcb | hcr
        · subst hcb; left; omega
        · have := hchain'.1 c hcr
          left; omega
      · exact absurd h1 (List.not_mem_nil g)
    · have hgb := computeGaps_mem dayEnd rest (max cursor b.2) hvrest g h2
      rcases List.mem_cons.mp hc with hcb | hcr
      · subst hcb; right; omega
      · exact ih (max cursor b.2) hvrest hchain'.2 g h2 c hcr

theorem chain_flatMap_slice30 (gaps : List (Int × Int))
    (hg : gaps.Pairwise fun g h => g.2 ≤ h.1) :
    (gaps.flatMap fun g => slice30 g.1 g.2).Pairwise fun p q => p.2 ≤ q.1 := by
  induction gaps with
  | nil => simp
  | cons g rest ih =>
    have hg' := List.pairwise_cons.mp hg
    simp only [List.flatMap_cons]
    rw [List.pairwise_append]
    refine ⟨slice30_chain g.1 g.2, ih hg'.2, ?_⟩
    intro p hp q hq
    obtain ⟨h, hhrest, hqh⟩ := List.mem_flatMap.mp hq
    have hp' := slice30_mem g.1 g.2 p hp
    have hq' := slice30_mem h.1 h.2 q hqh
    have hgh := hg'.1 h hhrest
    omega

theorem sortBusy_chain (busy : List (Int × Int))
    (hv : ∀ b ∈ busy, b.1 < b.2)
    (hd : busy.Pairwise fun a b => a.2 ≤ b.1 ∨ b.2 ≤ a.1) :
    (sortBusy busy).Pairwise fun a b => a.2 ≤ b.1 := by
  have hperm : List.Perm (sortBusy busy) busy := List.perm_insertionSort busyLE busy
  have hsorted : (sortBusy busy).Sorted busyLE := List.sorted_insertionSort busyLE busy
  have hsymm : Symmetric fun a b : Int × Int => a.2 ≤ b.1 ∨ b.2 ≤ a.1 := by
    intro a b h; omega
  have hd' : (sortBusy busy).Pairwise fun a b => a.2 ≤ b.1 ∨ b.2 ≤ a.1 :=
    (hperm.pairwise_iff (fun {a b} h => hsymm h)).mpr hd
  have hv' : ∀ b ∈ sortBusy busy, b.1 < b.2 := fun b hb => hv b (hperm.mem_iff.mp hb)
  refine (hsorted.and hd').imp_of_mem ?_
  intro a b ha hb hab
  have hva := hv' a ha
  have hvb := hv' b hb
  obtain ⟨h1, h2⟩ := hab
  unfold busyLE at h1
  omega

/-- C4: for every list of non-overlapping busy intervals contained in
`[dayStart, dayEnd)`, the slot computation of `_suggest_times` (cursor scan
over the busy intervals sorted by start, gap emission, 30-minute slicing
with the shorter trailing remainder discarded) returns slots of exactly the
slot duration, pairwise non-overlapping, each contained within a free gap,
and leaves no free gap of length at least 30 minutes without a slot. -/
theorem c4_slot_calculator (dayStart dayEnd : Int) (busy : List (Int × Int))
    (hv : ∀ b ∈ busy, dayStart ≤ b.1 ∧ b.1 < b.2 ∧ b.2 ≤ dayEnd)
    (hd : busy.Pairwise fun a b => a.2 ≤ b.1 ∨ b.2 ≤ a.1) :
    SlotCalcCorrect dayStart dayEnd busy := by
  have hperm : List.Perm (sortBusy busy) busy := List.perm_insertionSort busyLE busy
  have hvs : ∀ b ∈ sortBusy busy, b.1 < b.2 ∧ b.2 ≤ dayEnd := by
    intro b hb
    have := hv b (hperm.mem_iff.mp hb)
    exact ⟨this.2.1, this.2.2⟩
  have hchain : (sortBusy busy).Pairwise fun a b => a.2 ≤ b.1 :=
    sortBusy_chain busy (fun b hb => (hv b hb).2.1) hd
  have hgmem := computeGaps_mem dayEnd (sortBusy busy) dayStart hvs
  have hgchain := computeGaps_chain dayEnd (sortBusy busy) dayStart hvs
  have hgdisj := computeGaps_disjoint dayEnd (sortBusy busy) dayStart hvs hchain
  refine ⟨?_, ?_, ?_, ?_⟩
  · intro p hp
    obtain ⟨g, hgIn, hpg⟩ := List.mem_flatMap.mp hp
    exact (slice30_mem g.1 g.2 p hpg).2.1
  · exact (chain_flatMap_slice30 _ hgchain).imp (fun h => Or.inl h)
  · intro p hp
    obtain ⟨g, hgIn, hpg⟩ := List.mem_flatMap.mp hp
    have hb := slice30_mem g.1 g.2 p hpg
    refine ⟨g, hgIn, hb.1, by omega, ?_⟩
    intro b hbIn
    exact hgdisj g hgIn b (hperm.mem_iff.mpr hbIn)
  · intro g hgIn hlen
    refine ⟨(g.1, g.1 + 30), ?_, by omega, by omega⟩
    exact List.mem_flatMap.mpr ⟨g, hgIn, slice30_head g.1 g.2 hlen⟩

/-- Witness for C4 at a concrete input: business day 9:00-17:00 (minutes
540-1020) with one busy interval 10:00-10:30. -/
theorem c4_slot_calculator_witness : SlotCalcCorrect 540 1020 [(600, 630)] :=
  c4_slot_calculator 540 1020 [(600, 630)] (by decide) (by decide)

/-- C2: the claim says the first message for a new `session_id` creates a
fresh `ConversationState` with empty collections sharing no mutable state
with any other session.  The code's `self.initial_state.copy()` is a
shallow `dict.copy`, so all sessions share the same inner list objects:
after session "A" processes "hello", (1) the state freshly created for the
never-seen session "B" already carries A's message history, and (2)
processing a message for "B" mutates the history stored under "A".  The
claim (and the spec) state the clear intent; the shallow copy is a code
bug. -/
theorem c2_shared_state_bug :
    ((getOrCreate (processMessageEntry initAgentSessions "A" "hello") "B").1.heap
        (getOrCreate (processMessageEntry initAgentSessions "A" "hello") "B").2
      = [Msg.human "hello"])
    ∧ (sessionMessages
        (processMessageEntry (processMessageEntry initAgentSessions "A" "hello") "B" "hi") "A"
      = some [Msg.human "hello", Msg.human "hi"]) :=
  ⟨rfl, rfl⟩

/-- C1 counterexample: after the second turn — a general inquiry in which
no availability check occurred (its calendar function would have raised) —
`context['availability']` still holds the slot list computed in turn 1
instead of being absent, so the keys are NOT cleared at the start of a new
user turn. -/
theorem c1_counterexample_stale_availability :
    (c1Turn2.map fun st => st.context.availability)
        = .ok (some (computeFreeSlots 540 1020 [(600, 630)]))
    ∧ (c1Turn2.map fun st => st.context.availability) ≠ .ok none
    ∧ (c1Turn2.map fun st => st.messages.getLast?.map Msg.content)
        = .ok (some "I can help with booking, canceling, and rescheduling appointments. How can I assist you today?") := by
  refine ⟨rfl, ?_, rfl⟩
  rw [show (c1Turn2.map fun st => st.context.availability)
      = .ok (some (computeFreeSlots 540 1020 [(600, 630)])) from rfl]
  simp

/-- C1 amended: `process_message` does NOT clear `availability` or
`availability_error` before entering the graph; the pre-graph prelude
preserves both keys whenever the caller-supplied context patch does not
itself set them, so a turn that performs no availability check leaves the
prior turn's values in place. -/
theorem c1_amended_no_clearing (st : AgentState) (message : String)
    (callerCtx : Ctx)
    (h1 : callerCtx.availability = none)
    (h2 : callerCtx.availability_error = none) :
    (processMessagePre st message callerCtx).context.availability
        = st.context.availability
    ∧ (processMessagePre st message callerCtx).context.availability_error
        = st.context.availability_error := by
  unfold processMessagePre
  split
  · exact ⟨rfl, rfl⟩
  · simp [Ctx.updateFrom, h1, h2]

/-- Witness for the C1 amendment at a concrete input: a state holding a
stale busy list, a new message and an empty caller context. -/
theorem c1_amended_no_clearing_witness :
    ({} : Ctx).availability = none
    ∧ (processMessagePre
        {context := {availability := some [(600, 630)],
                     availability_error := some "boom"}}
        "hello" {}).context.availability = some [(600, 630)] := by
  refine ⟨rfl, ?_⟩
  have h := c1_amended_no_clearing
    {context := {availability := some [(600, 630)],
                 availability_error := some "boom"}}
    "hello" {} rfl rfl
  rw [h.1]

/-- C6 amended: a classifier reply that is not valid JSON, or a JSON
OBJECT without an `intent` key, defaults the intent to `general_inquiry`
and the node returns normally; but a reply that parses as a non-object
JSON value (also lacking an `intent` key) makes `result.get` raise an
`AttributeError` that escapes `_understand_intent`. -/
theorem c6_amended_malformed_classifier (env : TurnEnv) (st : AgentState) :
    (env.classifierResp = .ok .notJson →
      understandIntent env st = .ok {st with intent := "general_inquiry"})
    ∧ (env.classifierResp = .ok (.jsonObj none) →
      understandIntent env st = .ok {st with intent := "general_inquiry"})
    ∧ (∀ i, env.classifierResp = .ok (.jsonObj (some i)) →
      understandIntent env st = .ok {st with intent := i})
    ∧ (env.classifierResp = .ok .jsonNonObj →
      ∃ e, understandIntent env st = .error e) := by
  refine ⟨fun h => ?_, fun h => ?_, fun i h => ?_, fun h => ?_⟩ <;>
    simp [understandIntent, h]

/-- Witness for the C6 amendment at concrete inputs. -/
theorem c6_amended_malformed_classifier_witness :
    understandIntent {stockEnv with classifierResp := .ok .notJson} {}
        = .ok {({} : AgentState) with intent := "general_inquiry"}
    ∧ ∃ e, understandIntent {stockEnv with classifierResp := .ok .jsonNonObj} {}
        = .error e :=
  ⟨(c6_amended_malformed_classifier _ {}).1 rfl,
    (c6_amended_malformed_classifier _ {}).2.2.2 rfl⟩

/-- C6 counterexample: a classifier reply that parses as JSON but is not an
object (for example the bare JSON string `"book_appointment"`) lacks an
`intent` key, yet the node neither defaults to `general_inquiry` nor
returns normally: the `AttributeError` escapes. -/
theorem c6_counterexample_nonobject_json :
    understandIntent {stockEnv with classifierResp := .ok .jsonNonObj} {}
      = .error "AttributeError: object has no attribute get" := rfl

/-- C7: when the fuzzy parse of the latest human utterance fails (or there
is no human utterance), `_extract_datetime` removes any previously stored
`parsed_datetime` instead of leaving a stale value; on success it stores
the parse result localized to the single fixed reference timezone
(`localizeIST`, UTC+5:30). -/
theorem c7_extract_datetime (env : TurnEnv) (st : AgentState) :
    ((latestHumanContent st.messages = ""
        ∨ env.parseFuzzy (latestHumanContent st.messages) = none) →
      (extractDatetime env st).parsed_datetime = none)
    ∧ (∀ n, latestHumanContent st.messages ≠ "" →
        env.parseFuzzy (latestHumanContent st.messages) = some n →
        (extractDatetime env st).parsed_datetime = some (localizeIST n)) := by
  constructor
  · intro h
    rcases h with h | h
    · simp [extractDatetime, h]
    · by_cases hl : latestHumanContent st.messages = ""
      · simp [extractDatetime, hl]
      · simp [extractDatetime, hl, h]
  · intro n hl hp
    simp [extractDatetime, hl, hp]

/-- Witness for C7 at a concrete input: a state whose `extracted_info`
still holds a stale 10:00 timestamp and whose latest human message does
not parse — the key is removed — plus a successful parse storing the
localized value. -/
theorem c7_extract_datetime_witness :
    (extractDatetime stockEnv
        {messages := [Msg.human "hello there"],
         parsed_datetime := some (localizeIST 600)}).parsed_datetime = none
    ∧ (extractDatetime {stockEnv with parseFuzzy := fun _ => some 900}
        {messages := [Msg.human "tomorrow 3pm"]}).parsed_datetime
      = some (localizeIST 900) := by
  constructor
  · exact (c7_extract_datetime stockEnv
      {messages := [Msg.human "hello there"],
       parsed_datetime := some (localizeIST 600)}).1 (Or.inr rfl)
  · exact (c7_extract_datetime {stockEnv with parseFuzzy := fun _ => some 900}
      {messages := [Msg.human "tomorrow 3pm"]}).2 900 (by decide) rfl

/-- C10: in `_check_specific_slot`, a raised free/busy call or a response
carrying an `error` key sets `is_slot_available` to false; and the
follow-up router sends the turn to confirmation only when the exact-window
free/busy query succeeded and reported no busy interval, so an event is
only created after a successful, empty free/busy check. -/
theorem c10_no_booking_without_free_check (env : TurnEnv) (st st2 : AgentState)
    (t : TZTime)
    (ht : st.parsed_datetime = some t)
    (hok : checkSpecificSlot env st = .ok st2) :
    (((∃ e, env.getAvailability t.naive (t.naive + 30) = .error e)
        ∨ (∃ m, env.getAvailability t.naive (t.naive + 30) = .ok (.errorResp m))) →
      st2.context.is_slot_available = some false)
    ∧ ((routeAfterSpecificSlotCheck st2).1 = "confirm" →
        env.getAvailability t.naive (t.naive + 30) = .ok (.busyList [])) := by
  simp only [checkSpecificSlot, ht] at hok
  constructor
  · rintro (⟨e, he⟩ | ⟨m, hm⟩)
    · rw [he] at hok
      cases hok
      rfl
    · rw [hm] at hok
      cases hok
      rfl
  · intro hroute
    rcases hq : env.getAvailability t.naive (t.naive + 30) with e | r
    · rw [hq] at hok
      cases hok
      simp [routeAfterSpecificSlotCheck] at hroute
    · rcases r with m | b
      · rw [hq] at hok
        cases hok
        simp [routeAfterSpecificSlotCheck] at hroute
      · rw [hq] at hok
        cases hok
        simp only [routeAfterSpecificSlotCheck] at hroute
        split at hroute
        · rename_i hcond
          simp at hcond
          subst hcond
          rfl
        · simp at hroute

/-- Witness for C10 at concrete inputs: an erroring free/busy call forces
`is_slot_available = false`, and in a run where the router says confirm
the query must have been the successful empty one. -/
theorem c10_no_booking_without_free_check_witness :
    (∀ st2, checkSpecificSlot
        {stockEnv with getAvailability := fun _ _ => .error "boom"}
        {parsed_datetime := some (localizeIST 900)} = .ok st2 →
      st2.context.is_slot_available = some false)
    ∧ (∀ st2, checkSpecificSlot stockEnv
        {parsed_datetime := some (localizeIST 900)} = .ok st2 →
      (routeAfterSpecificSlotCheck st2).1 = "confirm" →
      stockEnv.getAvailability 900 930 = .ok (.busyList [])) := by
  constructor
  · intro st2 hok
    exact (c10_no_booking_without_free_check _ _ st2 (localizeIST 900) rfl hok).1
      (Or.inl ⟨"boom", rfl⟩)
  · intro st2 hok hroute
    exact (c10_no_booking_without_free_check _ _ st2 (localizeIST 900) rfl hok).2
      hroute

/-- C8: the routing after `_find_event_for_action`.  Intent `find_event`
always goes to `list_found_events` regardless of candidate count; with any
other intent, zero candidates append the not-found response and go to
`list_found_events`; exactly one candidate routes by the original intent
to `handle_cancellation` or `handle_reschedule_request`; more than one
candidate goes to `clarify_cancellation`. -/
theorem c8_route_after_event_search (st : AgentState) :
    (st.intent = "find_event" →
      routeAfterEventSearch st = ("list_events", st)
      ∧ eventSearchEdgeMap "list_events" = "list_found_events")
    ∧ (st.intent ≠ "find_event" → st.cancellation_candidates = [] →
      routeAfterEventSearch st = ("not_found", st.sayAI notFoundMsg)
      ∧ eventSearchEdgeMap "not_found" = "list_found_events")
    ∧ (∀ ev, st.intent = "cancel_appointment" → st.cancellation_candidates = [ev] →
      routeAfterEventSearch st = ("cancel", st)
      ∧ eventSearchEdgeMap "cancel" = "handle_cancellation")
    ∧ (∀ ev, st.intent = "reschedule_appointment" →
      st.cancellation_candidates = [ev] →
      routeAfterEventSearch st = ("reschedule", st)
      ∧ eventSearchEdgeMap "reschedule" = "handle_reschedule_request")
    ∧ (st.intent ≠ "find_event" → st.cancellation_candidates.length > 1 →
      routeAfterEventSearch st = ("clarify_cancel", st)
      ∧ eventSearchEdgeMap "clarify_cancel" = "clarify_cancellation") := by
  refine ⟨fun h => ?_, fun h hc => ?_, fun ev h hc => ?_, fun ev h hc => ?_,
    fun h hc => ?_⟩
  · simp [routeAfterEventSearch, eventSearchEdgeMap, h]
  · simp [routeAfterEventSearch, eventSearchEdgeMap, h, hc]
  · simp [routeAfterEventSearch, eventSearchEdgeMap, h, hc]
  · simp [routeAfterEventSearch, eventSearchEdgeMap, h, hc]
  · have h0 : ¬ st.cancellation_candidates.length = 0 := by omega
    simp [routeAfterEventSearch, eventSearchEdgeMap, h, h0, hc]

/-- Witness for C8 at concrete states covering all five branches. -/
theorem c8_route_after_event_search_witness :
    routeAfterEventSearch {intent := "find_event"} = ("list_events", {intent := "find_event"})
    ∧ routeAfterEventSearch {intent := "cancel_appointment"}
      = ("not_found", AgentState.sayAI {intent := "cancel_appointment"} notFoundMsg)
    ∧ routeAfterEventSearch
        {intent := "cancel_appointment", cancellation_candidates := [{id := some "e1"}]}
      = ("cancel", {intent := "cancel_appointment", cancellation_candidates := [{id := some "e1"}]})
    ∧ routeAfterEventSearch
        {intent := "reschedule_appointment", cancellation_candidates := [{id := some "e1"}]}
      = ("reschedule", {intent := "reschedule_appointment", cancellation_candidates := [{id := some "e1"}]})
    ∧ routeAfterEventSearch
        {intent := "cancel_appointment", cancellation_candidates := [{id := some "e1"}, {id := some "e2"}]}
      = ("clarify_cancel", {intent := "cancel_appointment", cancellation_candidates := [{id := some "e1"}, {id := some "e2"}]}) := by
  refine ⟨((c8_route_after_event_search {intent := "find_event"}).1 rfl).1,
    ((c8_route_after_event_search {intent := "cancel_appointment"}).2.1 (by decide) rfl).1,
    ((c8_route_after_event_search _).2.2.1 {id := some "e1"} rfl rfl).1,
    ((c8_route_after_event_search _).2.2.2.1 {id := some "e1"} rfl rfl).1,
    ((c8_route_after_event_search _).2.2.2.2 (by decide) (by decide)).1⟩

/-- C3 amended: the try/except placement is not uniform across nodes.
`_check_availability`, `_check_specific_slot` and `_confirm_booking` wrap
their collaborator calls and always return a state; but an exception from
the classifier call in `_understand_intent`, or from the calendar call in
`_handle_cancellation` (and likewise `_complete_reschedule` and
`_find_event_for_action`), escapes the node. -/
theorem c3_amended_failure_semantics :
    (∀ env st, ∃ st2, checkAvailability env st = .ok st2)
    ∧ (∀ env st, ∃ st2, checkSpecificSlot env st = .ok st2)
    ∧ (∀ env st, ∃ st2, confirmBooking env st = .ok st2)
    ∧ (∀ env st e, env.classifierResp = .error e →
        understandIntent env st = .error e)
    ∧ (∀ env st ev rest e, st.cancellation_candidates = ev :: rest →
        env.deleteEvent ev.id = .error e → handleCancellation env st = .error e)
    ∧ (∀ env st t e, st.messages ≠ [] →
        (extractDatetime env st).parsed_datetime = some t →
        env.getAvailability t.naive (t.naive + durOf st.event_to_reschedule)
          = .error e →
        completeReschedule env st = .error e)
    ∧ (∀ env st t e,
        (extractDatetime env st).parsed_datetime = some t →
        env.searchEvents
            (if t.naive % 1440 = 0 then t.naive else t.naive - 120)
            (if t.naive % 1440 = 0 then t.naive + 1440 else t.naive + 120)
          = .error e →
        findEventForAction env st = .error e) := by
  refine ⟨?_, ?_, ?_, ?_, ?_, ?_, ?_⟩
  · intro env st
    simp only [checkAvailability]
    split
    · exact ⟨_, rfl⟩
    · exact ⟨_, rfl⟩
    · exact ⟨_, rfl⟩
  · intro env st
    exact ⟨_, rfl⟩
  · intro env st
    exact ⟨_, rfl⟩
  · intro env st e h
    simp [understandIntent, h]
  · intro env st ev rest e hc hd
    simp [handleCancellation, hc, hd]
  · intro env st t e hm hx hq
    obtain ⟨last, hlast⟩ := Option.isSome_iff_exists.mp
      (List.getLast?_isSome.mpr hm)
    simp only [completeReschedule, hlast, hx, hq]
  · intro env st t e hx hq
    by_cases hz : t.naive % 1440 = 0
    · simp only [hz, if_pos] at hq
      simp [findEventForAction, hx, hz, hq]
    · simp only [hz, if_neg, ite_false] at hq
      simp [findEventForAction, hx, hz, hq]

/-- Witness for the C3 amendment at concrete inputs: the wrapped
availability check returns normally even when its calendar call raises,
while a raising classifier call escapes `_understand_intent` and a raising
search call escapes `_find_event_for_action`. -/
theorem c3_amended_failure_semantics_witness :
    (∃ st2, checkAvailability
        {stockEnv with getAvailability := fun _ _ => .error "boom"} {} = .ok st2)
    ∧ understandIntent {stockEnv with classifierResp := .error "APIConnectionError"} {}
        = .error "APIConnectionError"
    ∧ findEventForAction
        {stockEnv with parseFuzzy := fun _ => some 900,
                       searchEvents := fun _ _ => .error "boom2"}
        {messages := [Msg.human "cancel my 3pm meeting"]} = .error "boom2" :=
  ⟨c3_amended_failure_semantics.1
      {stockEnv with getAvailability := fun _ _ => .error "boom"} {},
    c3_amended_failure_semantics.2.2.2.1
      {stockEnv with classifierResp := .error "APIConnectionError"} {}
      "APIConnectionError" rfl,
    c3_amended_failure_semantics.2.2.2.2.2.2
      {stockEnv with parseFuzzy := fun _ => some 900,
                     searchEvents := fun _ _ => .error "boom2"}
      {messages := [Msg.human "cancel my 3pm meeting"]}
      (localizeIST 900) "boom2" rfl rfl⟩

/-- C3 counterexample: the claim says every exception raised while calling
the Calendar Port inside a node is caught at the node boundary, yet the
uncaught exception of the delete call (in the source the attribute lookup
`self.calendar_service` itself raises, since `__init__` never sets that
attribute) propagates out of `_handle_cancellation` with no apologetic
message appended. -/
theorem c3_counterexample_uncaught_port_exception :
    handleCancellation c3Env c3St
      = .error "AttributeError: TailorTalkAgent object has no attribute calendar_service" := rfl

/-- Claim C5 helper: with a pending reschedule the graph entry reduces to
`complete_reschedule` followed by END. -/
theorem runTurn_entry (env : TurnEnv) (st : AgentState) :
    runTurn env st = runFromNode env 15 (initialRouterTarget st) st := rfl

/-- C5: a state whose `event_to_reschedule` is set makes the entry router
send the turn straight to `complete_reschedule` (the whole turn IS that
node, so `understand_intent` is never executed and the classifier result
is irrelevant); the inbound message is fed to the temporal extractor as
the new time; and a completed (successful) reschedule clears
`event_to_reschedule`. -/
theorem c5_pending_reschedule_routing :
    (∀ env st, st.event_to_reschedule.isSome = true →
      runTurn env st = completeReschedule env st)
    ∧ (∀ env c st, st.event_to_reschedule.isSome = true →
      runTurn {env with classifierResp := c} st = runTurn env st)
    ∧ (∀ env st ev t eid ur,
        st.event_to_reschedule = some ev →
        st.messages ≠ [] →
        (extractDatetime env st).parsed_datetime = some t →
        env.getAvailability t.naive (t.naive + durOf (some ev)) = .ok (.busyList []) →
        ev.id = some eid →
        env.updateEvent eid t.naive (t.naive + durOf (some ev)) = .ok ur →
        ur.error = none →
        ∃ st2, completeReschedule env st = .ok st2
          ∧ st2.event_to_reschedule = none ∧ st2.cancellation_candidates = []) := by
  have hmain : ∀ env st, st.event_to_reschedule.isSome = true →
      runTurn env st = completeReschedule env st := by
    intro env st h
    rw [runTurn_entry]
    have htarget : initialRouterTarget st = "complete_reschedule" := by
      simp [initialRouterTarget, h]
    rw [htarget]
    show Except.bind (completeReschedule env st)
      (fun s => runFromNode env 14 "END" s) = completeReschedule env st
    cases completeReschedule env st with
    | error e => rfl
    | ok s => rfl
  refine ⟨hmain, ?_, ?_⟩
  · intro env c st h
    rw [hmain _ st h, hmain env st h]
    rfl
  · intro env st ev t eid ur hev hm hx hq hid hu hur
    obtain ⟨last, hlast⟩ := Option.isSome_iff_exists.mp
      (List.getLast?_isSome.mpr hm)
    refine ⟨({(extractDatetime env st) with event_to_reschedule := none, cancellation_candidates := []}).sayAI
        ("Excellent! I have successfully rescheduled your appointment to "
          ++ formatDT t.naive ++ "."), ?_, rfl, rfl⟩
    simp [completeReschedule, FreeBusy.busyOf, hlast, hev, hx, hq, hid, hu, hur]

/-- Witness for C5 at a concrete input: the turn is routed to
`complete_reschedule` and the successful reschedule clears the pending
event. -/
theorem c5_pending_reschedule_routing_witness :
    runTurn c5Env c5St = completeReschedule c5Env c5St
    ∧ ∃ st2, completeReschedule c5Env c5St = .ok st2
        ∧ st2.event_to_reschedule = none ∧ st2.cancellation_candidates = [] :=
  ⟨c5_pending_reschedule_routing.1 c5Env c5St rfl,
    c5_pending_reschedule_routing.2.2 c5Env c5St
      {id := some "evt1", summary := some "Sync", startTime := some 600,
       endTime := some 630}
      (localizeIST 900) "evt1" {id := some "evt1"} rfl (by simp [c5St]) rfl rfl
      rfl rfl rfl⟩

/-- C9 amended: a busy exact-window check sets the
`user_informed_slot_is_busy` flag and routes through `check_availability`
into `suggest_times`; `suggest_times` replies with the apologetic
alternatives message when at least one other 30-minute slot is free that
day, but with a different no-other-slots apology when the day has no free
slot — and a free exact window routes to confirmation. -/
theorem c9_amended_busy_slot_alternatives (env : TurnEnv) (st : AgentState) :
    (st.context.is_slot_available.getD false = false →
      routeAfterSpecificSlotCheck st
        = ("suggest_alternatives",
            {st with context := {st.context with user_informed_slot_is_busy := some true}})
      ∧ specificSlotEdgeMap "suggest_alternatives" = "check_availability")
    ∧ (st.context.is_slot_available = some true →
      routeAfterSpecificSlotCheck st = ("confirm", st)
      ∧ specificSlotEdgeMap "confirm" = "confirm_booking")
    ∧ (∀ t, st.context.user_informed_slot_is_busy = some true →
        st.parsed_datetime = some t →
        ∀ st2, suggestTimes env st = .ok st2 →
          (computeFreeSlots (replaceHM t 9 0).naive (replaceHM t 17 0).naive
              (st.context.availability.getD []) = [] →
            st2.messages.getLast?.map Msg.content = some noSlotsMsg)
          ∧ (computeFreeSlots (replaceHM t 9 0).naive (replaceHM t 17 0).naive
              (st.context.availability.getD []) ≠ [] →
            st2.messages.getLast?.map Msg.content = some busyAltMsg)) := by
  refine ⟨fun h => ?_, fun h => ?_, fun t hflag ht st2 hok => ?_⟩
  · constructor
    · simp [routeAfterSpecificSlotCheck, h]
    · rfl
  · constructor
    · simp [routeAfterSpecificSlotCheck, h]
    · rfl
  · simp only [suggestTimes, hflag, ht] at hok
    constructor
    · intro hempty
      rw [if_pos (by simp [hempty])] at hok
      cases hok
      simp [AgentState.sayAI, List.getLast?_concat, Msg.content]
    · intro hne
      rw [if_neg (by simp [hne])] at hok
      cases hok
      simp [AgentState.sayAI, List.getLast?_concat, Msg.content]

/-- Witness for the C9 amendment at concrete inputs: a busy-slot state gets
the flag and the alternatives route, and a `suggest_times` run over a day
with free slots replies with the apologetic alternatives message. -/
theorem c9_amended_busy_slot_alternatives_witness :
    (routeAfterSpecificSlotCheck {context := {is_slot_available := some false}}
      = ("suggest_alternatives",
          {context := {is_slot_available := some false,
                       user_informed_slot_is_busy := some true}})
      ∧ specificSlotEdgeMap "suggest_alternatives" = "check_availability")
    ∧ (∀ st2, suggestTimes stockEnv
        {context := {user_informed_slot_is_busy := some true,
                     availability := some [(900, 930)]},
         parsed_datetime := some (localizeIST 900)} = .ok st2 →
        st2.messages.getLast?.map Msg.content = some busyAltMsg) :=
  ⟨(c9_amended_busy_slot_alternatives stockEnv
      {context := {is_slot_available := some false}}).1 rfl,
    fun st2 hok =>
      ((c9_amended_busy_slot_alternatives stockEnv _).2.2 (localizeIST 900)
        rfl rfl st2 hok).2 (by decide)⟩

/-- C9 counterexample: the booking turn whose exact requested window is
busy does set `user_informed_slot_is_busy` and reaches `suggest_times`,
but its response is the no-other-slots apology, not the claimed
alternatives-listing message. -/
theorem c9_counterexample_fully_busy_day :
    (c9Turn.map fun st => st.messages.getLast?.map Msg.content)
        = .ok (some noSlotsMsg)
    ∧ (c9Turn.map fun st => st.context.user_informed_slot_is_busy)
        = .ok (some true)
    ∧ (c9Turn.map fun st => st.context.is_slot_available) = .ok (some false)
    ∧ noSlotsMsg ≠ busyAltMsg :=
  ⟨rfl, rfl, rfl, by decide⟩

